import Mathlib

/-!
Shallow embedding of the Zephyr UUID library (`lib/uuid/uuid.c`,
`include/zephyr/sys/uuid.h`) and proofs about its claimed properties.

C buffers are modelled as `List Nat` (bytes) and `List Char` (strings);
nullable pointers as `Option`; the `int` return codes as `Int`.  Each
embedded function mirrors the corresponding C function statement by
statement.  External collaborators whose code is not among the sources
(the libc `isxdigit`, the `hex2bin` helper, the base64 encoder, the
mbedtls hash primitive) are modelled from their documented standard
behaviour; the mbedtls primitive is kept abstract as an oracle of
return codes plus a digest.
-/

namespace UuidSpec

/-! Constants from `include/zephyr/sys/uuid.h` and the Zephyr errno table. -/

def UUID_SIZE : Nat := 16
def UUID_STR_LEN : Nat := 37
def UUID_BASE64_LEN : Nat := 25
def UUID_BASE64URL_LEN : Nat := 23

def EINVAL : Int := 22
def ENOMEM : Int := 12
def ENOTSUP : Int := 134

def MBEDTLS_ERR_MD_BAD_INPUT_DATA : Int := -20736
def MBEDTLS_ERR_MD_ALLOC_FAILED : Int := -20864

/-! String grammar helpers from `lib/uuid/uuid.c`. -/

/-- Embeds `should_be_hyphen` from `lib/uuid/uuid.c`: the `switch` that
is true exactly at the four hyphen positions 8, 13, 18, 23. -/
def should_be_hyphen (position : Nat) : Bool :=
  position == 8 || position == 13 || position == 18 || position == 23

/-- Modelled from the spec: the libc `isxdigit` used by the validation
pass; the character classes `0-9`, `a-f`, `A-F` by character code. -/
def isxdigit (c : Char) : Bool :=
  (48 ≤ c.toNat && c.toNat ≤ 57) ||
  (97 ≤ c.toNat && c.toNat ≤ 102) ||
  (65 ≤ c.toNat && c.toNat ≤ 70)

/-- Modelled from the spec: the nibble conversion of `char2hex` from the
Zephyr `hex2bin` helper (its code is not among the sources); standard
hex-digit-to-value conversion, `none` on a non-hex character. -/
def char2hex (c : Char) : Option Nat :=
  if 48 ≤ c.toNat && c.toNat ≤ 57 then some (c.toNat - 48)
  else if 97 ≤ c.toNat && c.toNat ≤ 102 then some (c.toNat - 97 + 10)
  else if 65 ≤ c.toNat && c.toNat ≤ 70 then some (c.toNat - 65 + 10)
  else none

/-- Modelled from the spec: `hex2bin(hex, 2, buf + off, buflen)` from the
Zephyr hex helper, specialised to a two-character pair as the parser calls
it.  Returns the number of bytes written together with the updated buffer;
the high nibble is stored before the low-nibble character is examined,
exactly as the helper does. -/
def hex2bin2 (c1 c2 : Char) (buf : List Nat) (off buflen : Nat) : Nat × List Nat :=
  if buflen < 1 then (0, buf)
  else
    match char2hex c1 with
    | none => (0, buf)
    | some h =>
      let buf1 := buf.set off (h <<< 4)
      match char2hex c2 with
      | none => (0, buf1)
      | some l => (1, buf1.set off ((buf1.getD off 0) ||| l))

/-- Embeds the validation `for` loop of `uuid_from_string`: the character
at each hyphen position must be a hyphen, every other character a hex
digit.  `i` is the position of the head of the remaining list. -/
def checkChars : List Char → Nat → Bool
  | [], _ => true
  | c :: rest, i =>
    (if should_be_hyphen i then c == '-' else isxdigit c) && checkChars rest (i + 1)

/-- Embeds the content-parsing `while` loop of `uuid_from_string`.  The
list holds the characters from position `i` on (the C loop runs while
`input_idx < UUID_STR_LEN - 1` over a string of exactly 36 characters, so
list exhaustion coincides with the loop bound); `o` is `out_idx`.  When a
pair starts at the final character, the C code reads the NUL terminator as
the second pair character. -/
def parse_chars : List Char → Nat → Nat → List Nat → Int × List Nat
  | [], _, _, buf => (0, buf)
  | [c1], i, o, buf =>
    if should_be_hyphen i then (0, buf)
    else
      let r := hex2bin2 c1 (Char.ofNat 0) buf o (UUID_SIZE - o)
      if r.1 ≠ 1 then (-EINVAL, r.2) else (0, r.2)
  | c1 :: c2 :: rest, i, o, buf =>
    if should_be_hyphen i then parse_chars (c2 :: rest) (i + 1) o buf
    else
      let r := hex2bin2 c1 c2 buf o (UUID_SIZE - o)
      if r.1 ≠ 1 then (-EINVAL, r.2)
      else parse_chars rest (i + 2) (o + 1) r.2

/-- Embeds `uuid_from_string` from `lib/uuid/uuid.c`: null checks and the
exact-length check, then the validation pass, then the decode pass.  The
second component of the result is the `out` buffer after the call. -/
def uuid_from_string (input : Option (List Char)) (out : Option (List Nat)) :
    Int × Option (List Nat) :=
  match input with
  | none => (-EINVAL, out)
  | some inp =>
    if inp.length + 1 ≠ UUID_STR_LEN then (-EINVAL, out)
    else
      match out with
      | none => (-EINVAL, out)
      | some o =>
        if checkChars inp 0 then
          let r := parse_chars inp 0 0 o
          (r.1, some r.2)
        else (-EINVAL, some o)

/-! Formatting to the canonical string (`uuid_to_string`). -/

/-- One lowercase hex digit as printed by `snprintf` with `%x`. -/
def hexDigit (n : Nat) : Char :=
  Char.ofNat (if n < 10 then 48 + n else 87 + n)

/-- The two characters `%02x` prints for one byte (a `uint8_t`, so the
value is below 256 and exactly two digits are produced). -/
def hexPair (b : Nat) : List Char :=
  [hexDigit (b / 16), hexDigit (b % 16)]

/-- The 36 characters produced by the `snprintf` format string of
`uuid_to_string`: hex pairs grouped 8-4-4-4-12 with hyphens between
groups. -/
def uuid_str (u : List Nat) : List Char :=
  hexPair (u.getD 0 0) ++ hexPair (u.getD 1 0) ++ hexPair (u.getD 2 0) ++
  hexPair (u.getD 3 0) ++ ['-'] ++
  hexPair (u.getD 4 0) ++ hexPair (u.getD 5 0) ++ ['-'] ++
  hexPair (u.getD 6 0) ++ hexPair (u.getD 7 0) ++ ['-'] ++
  hexPair (u.getD 8 0) ++ hexPair (u.getD 9 0) ++ ['-'] ++
  hexPair (u.getD 10 0) ++ hexPair (u.getD 11 0) ++ hexPair (u.getD 12 0) ++
  hexPair (u.getD 13 0) ++ hexPair (u.getD 14 0) ++ hexPair (u.getD 15 0)

/-- Embeds `uuid_to_string` from `lib/uuid/uuid.c`: null checks, then the
`snprintf` that writes the canonical 36-character representation into the
output buffer. -/
def uuid_to_string (uuid : Option (List Nat)) (out : Option (List Char)) :
    Int × Option (List Char) :=
  match uuid, out with
  | some u, some _ => (0, some (uuid_str u))
  | _, _ => (-EINVAL, out)

/-! Facts about hex digits and bytes used by the round-trip proof. -/

lemma char2hex_hexDigit (v : Nat) (h : v < 16) : char2hex (hexDigit v) = some v := by
  interval_cases v <;> decide

lemma isxdigit_hexDigit (v : Nat) (h : v < 16) : isxdigit (hexDigit v) = true := by
  interval_cases v <;> decide

set_option maxRecDepth 4000 in
lemma shift_or_byte (b : Nat) (h : b < 256) : ((b / 16) <<< 4) ||| (b % 16) = b := by
  have key : ∀ x : Fin 256, ((x.val / 16) <<< 4) ||| (x.val % 16) = x.val := by decide
  exact key ⟨b, h⟩

/-! Step lemmas that evaluate the validation pass on a canonical string. -/

lemma checkChars_nil (i : Nat) : checkChars [] i = true := rfl

lemma checkChars_hex (c : Char) (rest : List Char) (i : Nat)
    (hc : isxdigit c = true) (hi : should_be_hyphen i = false) :
    checkChars (c :: rest) i = checkChars rest (i + 1) := by
  simp [checkChars, hc, hi]

lemma checkChars_hyphen (rest : List Char) (i : Nat)
    (hi : should_be_hyphen i = true) :
    checkChars ('-' :: rest) i = checkChars rest (i + 1) := by
  simp [checkChars, hi]

/-! Step lemmas that evaluate the decode pass on a canonical string. -/

lemma parse_chars_nil (i o : Nat) (buf : List Nat) :
    parse_chars [] i o buf = (0, buf) := rfl

lemma parse_chars_hyphen (c c2 : Char) (rest : List Char) (i o : Nat) (buf : List Nat)
    (hi : should_be_hyphen i = true) :
    parse_chars (c :: c2 :: rest) i o buf = parse_chars (c2 :: rest) (i + 1) o buf := by
  simp [parse_chars, hi]

lemma parse_chars_pair (b : Nat) (rest : List Char) (i o : Nat) (buf : List Nat)
    (hb : b < 256) (ho : o < 16) (hlen : o < buf.length)
    (hi : should_be_hyphen i = false) :
    parse_chars (hexDigit (b / 16) :: hexDigit (b % 16) :: rest) i o buf =
      parse_chars rest (i + 2) (o + 1) (buf.set o b) := by
  have h1 := char2hex_hexDigit (b / 16) (by omega)
  have h2 := char2hex_hexDigit (b % 16) (by omega)
  have hbl : ¬(UUID_SIZE - o < 1) := by simp [UUID_SIZE]; omega
  have hget : (buf.set o ((b / 16) <<< 4)).getD o 0 = (b / 16) <<< 4 := by
    rw [List.getD_eq_getElem?_getD, List.getElem?_set_self (by simpa using hlen)]
    rfl
  simp only [parse_chars, hex2bin2, h1, h2, hbl, if_false, hi, Bool.false_eq_true,
    if_neg, ite_false, hget]
  rw [List.set_set]
  simp [shift_or_byte b hb]

/-! Claim C1: string round-trip. -/

/-- C1: formatting any 16-byte UUID value with `uuid_to_string` and parsing
the resulting 36-character string back with `uuid_from_string` succeeds and
yields exactly the original 16 bytes, whatever the previous contents of the
output buffer. -/
theorem uuid_string_round_trip
    (b0 b1 b2 b3 b4 b5 b6 b7 b8 b9 b10 b11 b12 b13 b14 b15 : Nat)
    (o0 o1 o2 o3 o4 o5 o6 o7 o8 o9 o10 o11 o12 o13 o14 o15 : Nat)
    (h0 : b0 < 256) (h1 : b1 < 256) (h2 : b2 < 256) (h3 : b3 < 256)
    (h4 : b4 < 256) (h5 : b5 < 256) (h6 : b6 < 256) (h7 : b7 < 256)
    (h8 : b8 < 256) (h9 : b9 < 256) (h10 : b10 < 256) (h11 : b11 < 256)
    (h12 : b12 < 256) (h13 : b13 < 256) (h14 : b14 < 256) (h15 : b15 < 256) :
    uuid_from_string
      (uuid_to_string
        (some [b0, b1, b2, b3, b4, b5, b6, b7, b8, b9, b10, b11, b12, b13, b14, b15])
        (some (List.replicate 37 ' '))).2
      (some [o0, o1, o2, o3, o4, o5, o6, o7, o8, o9, o10, o11, o12, o13, o14, o15]) =
      (0, some [b0, b1, b2, b3, b4, b5, b6, b7, b8, b9, b10, b11, b12, b13, b14, b15]) := by
  have hts : (uuid_to_string
      (some [b0, b1, b2, b3, b4, b5, b6, b7, b8, b9, b10, b11, b12, b13, b14, b15])
      (some (List.replicate 37 ' '))).2 =
      some (uuid_str [b0, b1, b2, b3, b4, b5, b6, b7, b8, b9, b10, b11, b12, b13, b14, b15]) :=
    rfl
  rw [hts]
  have hxa0 := isxdigit_hexDigit (b0 / 16) (by omega)
  have hxb0 := isxdigit_hexDigit (b0 % 16) (by omega)
  have hxa1 := isxdigit_hexDigit (b1 / 16) (by omega)
  have hxb1 := isxdigit_hexDigit (b1 % 16) (by omega)
  have hxa2 := isxdigit_hexDigit (b2 / 16) (by omega)
  have hxb2 := isxdigit_hexDigit (b2 % 16) (by omega)
  have hxa3 := isxdigit_hexDigit (b3 / 16) (by omega)
  have hxb3 := isxdigit_hexDigit (b3 % 16) (by omega)
  have hxa4 := isxdigit_hexDigit (b4 / 16) (by omega)
  have hxb4 := isxdigit_hexDigit (b4 % 16) (by omega)
  have hxa5 := isxdigit_hexDigit (b5 / 16) (by omega)
  have hxb5 := isxdigit_hexDigit (b5 % 16) (by omega)
  have hxa6 := isxdigit_hexDigit (b6 / 16) (by omega)
  have hxb6 := isxdigit_hexDigit (b6 % 16) (by omega)
  have hxa7 := isxdigit_hexDigit (b7 / 16) (by omega)
  have hxb7 := isxdigit_hexDigit (b7 % 16) (by omega)
  have hxa8 := isxdigit_hexDigit (b8 / 16) (by omega)
  have hxb8 := isxdigit_hexDigit (b8 % 16) (by omega)
  have hxa9 := isxdigit_hexDigit (b9 / 16) (by omega)
  have hxb9 := isxdigit_hexDigit (b9 % 16) (by omega)
  have hxa10 := isxdigit_hexDigit (b10 / 16) (by omega)
  have hxb10 := isxdigit_hexDigit (b10 % 16) (by omega)
  have hxa11 := isxdigit_hexDigit (b11 / 16) (by omega)
  have hxb11 := isxdigit_hexDigit (b11 % 16) (by omega)
  have hxa12 := isxdigit_hexDigit (b12 / 16) (by omega)
  have hxb12 := isxdigit_hexDigit (b12 % 16) (by omega)
  have hxa13 := isxdigit_hexDigit (b13 / 16) (by omega)
  have hxb13 := isxdigit_hexDigit (b13 % 16) (by omega)
  have hxa14 := isxdigit_hexDigit (b14 / 16) (by omega)
  have hxb14 := isxdigit_hexDigit (b14 % 16) (by omega)
  have hxa15 := isxdigit_hexDigit (b15 / 16) (by omega)
  have hxb15 := isxdigit_hexDigit (b15 % 16) (by omega)
  have hchk : checkChars
      (uuid_str [b0, b1, b2, b3, b4, b5, b6, b7, b8, b9, b10, b11, b12, b13, b14, b15])
      0 = true := by
    simp only [uuid_str, hexPair, List.getD_cons_zero, List.getD_cons_succ,
      List.cons_append, List.nil_append]
    simp [checkChars_hex, checkChars_hyphen, checkChars_nil, should_be_hyphen,
      hxa0, hxb0, hxa1, hxb1, hxa2, hxb2, hxa3, hxb3, hxa4, hxb4, hxa5, hxb5,
      hxa6, hxb6, hxa7, hxb7, hxa8, hxb8, hxa9, hxb9, hxa10, hxb10, hxa11, hxb11,
      hxa12, hxb12, hxa13, hxb13, hxa14, hxb14, hxa15, hxb15]
  have hpar : parse_chars
      (uuid_str [b0, b1, b2, b3, b4, b5, b6, b7, b8, b9, b10, b11, b12, b13, b14, b15])
      0 0 [o0, o1, o2, o3, o4, o5, o6, o7, o8, o9, o10, o11, o12, o13, o14, o15] =
      (0, [b0, b1, b2, b3, b4, b5, b6, b7, b8, b9, b10, b11, b12, b13, b14, b15]) := by
    simp only [uuid_str, hexPair, List.getD_cons_zero, List.getD_cons_succ,
      List.cons_append, List.nil_append]
    rw [parse_chars_pair b0 _ _ _ _ h0 (by omega) (by simp) (by decide)]
    rw [parse_chars_pair b1 _ _ _ _ h1 (by omega) (by simp) (by decide)]
    rw [parse_chars_pair b2 _ _ _ _ h2 (by omega) (by simp) (by decide)]
    rw [parse_chars_pair b3 _ _ _ _ h3 (by omega) (by simp) (by decide)]
    rw [parse_chars_hyphen _ _ _ _ _ _ (by decide)]
    rw [parse_chars_pair b4 _ _ _ _ h4 (by omega) (by simp) (by decide)]
    rw [parse_chars_pair b5 _ _ _ _ h5 (by omega) (by simp) (by decide)]
    rw [parse_chars_hyphen _ _ _ _ _ _ (by decide)]
    rw [parse_chars_pair b6 _ _ _ _ h6 (by omega) (by simp) (by decide)]
    rw [parse_chars_pair b7 _ _ _ _ h7 (by omega) (by simp) (by decide)]
    rw [parse_chars_hyphen _ _ _ _ _ _ (by decide)]
    rw [parse_chars_pair b8 _ _ _ _ h8 (by omega) (by simp) (by decide)]
    rw [parse_chars_pair b9 _ _ _ _ h9 (by omega) (by simp) (by decide)]
    rw [parse_chars_hyphen _ _ _ _ _ _ (by decide)]
    rw [parse_chars_pair b10 _ _ _ _ h10 (by omega) (by simp) (by decide)]
    rw [parse_chars_pair b11 _ _ _ _ h11 (by omega) (by simp) (by decide)]
    rw [parse_chars_pair b12 _ _ _ _ h12 (by omega) (by simp) (by decide)]
    rw [parse_chars_pair b13 _ _ _ _ h13 (by omega) (by simp) (by decide)]
    rw [parse_chars_pair b14 _ _ _ _ h14 (by omega) (by simp) (by decide)]
    rw [parse_chars_pair b15 _ _ _ _ h15 (by omega) (by simp) (by decide)]
    rw [parse_chars_nil]
    rfl
  simp only [uuid_from_string]
  rw [if_neg (by simp [uuid_str, hexPair, UUID_STR_LEN])]
  rw [if_pos hchk, hpar]

/-- Witness for C1 at the concrete test-suite value
`44b35f73-cfbd-43b4-8fef-ca7baea1375f`. -/
theorem uuid_string_round_trip_witness :
    uuid_from_string
      (uuid_to_string
        (some [0x44, 0xb3, 0x5f, 0x73, 0xcf, 0xbd, 0x43, 0xb4,
               0x8f, 0xef, 0xca, 0x7b, 0xae, 0xa1, 0x37, 0x5f])
        (some (List.replicate 37 ' '))).2
      (some [0, 0, 0, 0, 0, 0, 0, 0, 0, 0, 0, 0, 0, 0, 0, 0]) =
      (0, some [0x44, 0xb3, 0x5f, 0x73, 0xcf, 0xbd, 0x43, 0xb4,
                0x8f, 0xef, 0xca, 0x7b, 0xae, 0xa1, 0x37, 0x5f]) :=
  uuid_string_round_trip
    0x44 0xb3 0x5f 0x73 0xcf 0xbd 0x43 0xb4 0x8f 0xef 0xca 0x7b 0xae 0xa1 0x37 0x5f
    0 0 0 0 0 0 0 0 0 0 0 0 0 0 0 0
    (by decide) (by decide) (by decide) (by decide) (by decide) (by decide)
    (by decide) (by decide) (by decide) (by decide) (by decide) (by decide)
    (by decide) (by decide) (by decide) (by decide)

/-! Claim C7: strict length. -/

/-- C7: `uuid_from_string` returns `-EINVAL` for every input whose length
is not exactly 36 characters, leaving the output buffer unchanged. -/
theorem uuid_from_string_rejects_wrong_length
    (s : List Char) (out : Option (List Nat)) (h : s.length ≠ 36) :
    uuid_from_string (some s) out = (-EINVAL, out) := by
  have hlen : s.length + 1 ≠ UUID_STR_LEN := by
    simp [UUID_STR_LEN]; omega
  simp [uuid_from_string, hlen]

/-- Witness for C7 at a concrete length-35 input. -/
theorem uuid_from_string_rejects_wrong_length_witness :
    uuid_from_string (some (List.replicate 35 'a')) (some (List.replicate 16 7)) =
      (-EINVAL, some (List.replicate 16 7)) :=
  uuid_from_string_rejects_wrong_length _ _ (by simp)

/-! Claim C8: failures leave the output buffer untouched.  The decode
pass can only write after the validation pass has accepted every
character, and then it never fails; this is proved by tracking the
loop states the decode pass can reach. -/

/-- The pairs `(input_idx, out_idx)` the decode loop of `uuid_from_string`
can be in at the head of an iteration, having started at `(0, 0)` on a
36-character input: two characters and one output byte per hex pair, one
character and no output byte at each of the four hyphen positions. -/
def ok_states : List (Nat × Nat) :=
  [(0, 0), (2, 1), (4, 2), (6, 3), (8, 4), (9, 4), (11, 5), (13, 6),
   (14, 6), (16, 7), (18, 8), (19, 8), (21, 9), (23, 10), (24, 10),
   (26, 11), (28, 12), (30, 13), (32, 14), (34, 15), (36, 16)]

def ok_state (i o : Nat) : Prop := (i, o) ∈ ok_states

instance ok_state_decidable (i o : Nat) : Decidable (ok_state i o) := by
  unfold ok_state; infer_instance

lemma ok_state_hyphen_step (i o : Nat) (h : ok_state i o)
    (hh : should_be_hyphen i = true) : ok_state (i + 1) o := by
  have key : ∀ p ∈ ok_states, should_be_hyphen p.1 = true →
      (p.1 + 1, p.2) ∈ ok_states := by decide
  exact key (i, o) h hh

lemma ok_state_pair_step (i o : Nat) (h : ok_state i o)
    (hh : should_be_hyphen i = false) (hend : i ≠ 36) :
    should_be_hyphen (i + 1) = false ∧ o < 16 ∧ ok_state (i + 2) (o + 1) := by
  have key : ∀ p ∈ ok_states, should_be_hyphen p.1 = false → ¬(p.1 = 36) →
      should_be_hyphen (p.1 + 1) = false ∧ p.2 < 16 ∧
        (p.1 + 2, p.2 + 1) ∈ ok_states := by decide
  exact key (i, o) h hh hend

lemma ok_state_not_35 (o : Nat) : ¬ ok_state 35 o := by
  intro h
  have key : ∀ p ∈ ok_states, ¬(p.1 = 35) := by decide
  exact key (35, o) h rfl

lemma isxdigit_char2hex (c : Char) (h : isxdigit c = true) :
    ∃ v, char2hex c = some v := by
  unfold char2hex
  split_ifs with w1 w2 w3
  · exact ⟨_, rfl⟩
  · exact ⟨_, rfl⟩
  · exact ⟨_, rfl⟩
  · exfalso
    simp [isxdigit] at h
    simp at w1 w2 w3
    omega

/-- After the validation pass has accepted the input, the decode pass
cannot fail: from any reachable loop state, parsing the validated
remainder returns 0. -/
lemma parse_chars_valid : ∀ (n : Nat) (l : List Char) (i o : Nat) (buf : List Nat),
    l.length ≤ n → ok_state i o → i + l.length = 36 → checkChars l i = true →
    (parse_chars l i o buf).1 = 0 := by
  intro n
  induction n with
  | zero =>
    intro l i o buf hl _ _ _
    have hnil : l = [] := List.length_eq_zero.mp (by omega)
    subst hnil
    simp [parse_chars]
  | succ n IH =>
    intro l i o buf hl hok hsum hchk
    rcases l with _ | ⟨c1, l2⟩
    · simp [parse_chars]
    rcases l2 with _ | ⟨c2, rest⟩
    · exfalso
      have hi : i = 35 := by simp at hsum; omega
      subst hi
      exact ok_state_not_35 o hok
    by_cases hh : should_be_hyphen i = true
    · rw [parse_chars_hyphen _ _ _ _ _ _ hh]
      have hchk2 : checkChars (c2 :: rest) (i + 1) = true := by
        rw [checkChars, Bool.and_eq_true] at hchk
        exact hchk.2
      exact IH (c2 :: rest) (i + 1) o buf (by simp at hl ⊢; omega)
        (ok_state_hyphen_step i o hok hh) (by simp at hsum ⊢; omega) hchk2
    · have hh2 : should_be_hyphen i = false := by
        simpa using hh
      have hend : i ≠ 36 := by simp at hsum; omega
      obtain ⟨hn1, ho, hok2⟩ := ok_state_pair_step i o hok hh2 hend
      rw [checkChars, Bool.and_eq_true] at hchk
      obtain ⟨hc1, hchk⟩ := hchk
      rw [checkChars, Bool.and_eq_true] at hchk
      obtain ⟨hc2, hrest⟩ := hchk
      rw [hh2] at hc1
      rw [hn1] at hc2
      simp only [Bool.false_eq_true, if_false] at hc1 hc2
      obtain ⟨v1, hv1⟩ := isxdigit_char2hex c1 hc1
      obtain ⟨v2, hv2⟩ := isxdigit_char2hex c2 hc2
      have hbl : ¬(UUID_SIZE - o < 1) := by simp [UUID_SIZE]; omega
      simp only [parse_chars, hh2, Bool.false_eq_true, if_false,
        hex2bin2, hbl, hv1, hv2, ne_eq, not_true_eq_false, ite_false]
      exact IH rest (i + 2) (o + 1) _ (by simp at hl ⊢; omega) hok2
        (by simp at hsum ⊢; omega) hrest

/-- C8: on every failing input (absent input, wrong length, a misplaced
hyphen, or a non-hex character) `uuid_from_string` returns `-EINVAL` and
returns with the output buffer exactly as it was before the call — no
partial write is observable. -/
theorem uuid_from_string_failure_leaves_output
    (input : Option (List Char)) (out : Option (List Nat))
    (h : (uuid_from_string input out).1 ≠ 0) :
    uuid_from_string input out = (-EINVAL, out) := by
  rcases input with _ | inp
  · simp [uuid_from_string]
  by_cases hlen : inp.length + 1 ≠ UUID_STR_LEN
  · simp [uuid_from_string, hlen]
  rcases out with _ | o
  · simp [uuid_from_string, hlen]
  have hlen37 : inp.length + 1 = UUID_STR_LEN := by omega
  by_cases hchk : checkChars inp 0 = true
  · exfalso
    apply h
    have hlen36 : inp.length = 36 := by
      simp [UUID_STR_LEN] at hlen37
      omega
    have hpv := parse_chars_valid inp.length inp 0 0 o le_rfl (by decide)
      (by omega) hchk
    simp [uuid_from_string, hlen37, UUID_STR_LEN, hchk, hpv]
  · have hchk2 : checkChars inp 0 = false := by simpa using hchk
    simp [uuid_from_string, hlen37, UUID_STR_LEN, hchk2]

/-- Witness for C8 at a concrete failing input (a missing hyphen at
position 8, the test suite's `44b35f73-cfbd-43b4-8fef0ca7baea1375f`
class of failure shortened to a wrong-character case). -/
theorem uuid_from_string_failure_leaves_output_witness :
    uuid_from_string (some (List.replicate 36 'g')) (some (List.replicate 16 5)) =
      (-EINVAL, some (List.replicate 16 5)) :=
  uuid_from_string_failure_leaves_output _ _ (by decide)

/-! Generation (`uuid_generate_v4`, `uuid_generate_v5`) from
`lib/uuid/uuid.c`. -/

/-- Embeds `overwrite_uuid_version_and_variant`: clear the high nibble of
byte 6 (`&= ~0xF0`, i.e. `&= 0x0F` on a `uint8_t`) and the top two bits of
byte 8 (`&= ~0xC0`, i.e. `&= 0x3F`), then or in `version << 4` and
`variant << 6` (each truncated to a `uint8_t`). -/
def overwrite_uuid_version_and_variant (uuid : List Nat) (version variant : Nat) :
    List Nat :=
  let u1 := uuid.set 6 ((uuid.getD 6 0) &&& 0x0F)
  let u2 := u1.set 8 ((u1.getD 8 0) &&& 0x3F)
  let u3 := u2.set 6 ((u2.getD 6 0) ||| ((version <<< 4) % 256))
  u3.set 8 ((u3.getD 8 0) ||| ((variant <<< 6) % 256))

/-- Embeds `uuid_generate_v4`: a null check, then the output buffer is
filled with 16 bytes from the random source (`sys_rand_get`, passed here
as `rand`) and stamped with version 4 and variant 2. -/
def uuid_generate_v4 (rand : List Nat) (out : Option (List Nat)) :
    Int × Option (List Nat) :=
  match out with
  | none => (-EINVAL, none)
  | some _ => (0, some (overwrite_uuid_version_and_variant rand 4 2))

/-- Modelled from the spec: the mbedtls SHA-1 primitive used by
`uuid_generate_v5` is an external collaborator (its code is not among the
sources); it is abstracted as the return codes of its five calls plus the
20-byte digest `mbedtls_md_finish` would produce. -/
structure MdOracle where
  setup_ret : Int
  starts_ret : Int
  update_ns_ret : Int
  update_data_ret : Int
  finish_ret : Int
  digest : List Nat

/-- Result of a `uuid_generate_v5` call: the return code, whether
`mbedtls_md_free` was called on the hashing context before returning, and
the output buffer after the call. -/
structure V5Result where
  ret : Int
  freed : Bool
  out : List Nat
deriving DecidableEq

/-- Embeds `uuid_generate_v5`: null checks; `mbedtls_md_setup` with the
three-way `switch` on its error code; `mbedtls_md_starts`, two
`mbedtls_md_update` calls and `mbedtls_md_finish`, each early-returning
`-EINVAL` on any nonzero code; `mbedtls_md_free` is reached only after
`mbedtls_md_finish` succeeds; then the first 16 digest bytes are copied to
`out` and stamped with version 5 and variant 2. -/
def uuid_generate_v5 (nsNull outNull : Bool) (md : MdOracle) (out : List Nat) :
    V5Result :=
  if outNull || nsNull then ⟨-EINVAL, false, out⟩
  else if md.setup_ret = 0 then
    if md.starts_ret ≠ 0 then ⟨-EINVAL, false, out⟩
    else if md.update_ns_ret ≠ 0 then ⟨-EINVAL, false, out⟩
    else if md.update_data_ret ≠ 0 then ⟨-EINVAL, false, out⟩
    else if md.finish_ret ≠ 0 then ⟨-EINVAL, false, out⟩
    else ⟨0, true, overwrite_uuid_version_and_variant (md.digest.take 16) 5 2⟩
  else if md.setup_ret = MBEDTLS_ERR_MD_BAD_INPUT_DATA then ⟨-EINVAL, false, out⟩
  else if md.setup_ret = MBEDTLS_ERR_MD_ALLOC_FAILED then ⟨-ENOMEM, false, out⟩
  else ⟨-ENOTSUP, false, out⟩

/-! Claim C2: release of the hashing context on every exit path. -/

/-- C2 fails on the code: with non-null arguments and a context that was
set up successfully, an error from `mbedtls_md_starts` makes
`uuid_generate_v5` return `-EINVAL` without ever calling
`mbedtls_md_free`, while on the success path the context is freed.  The
claimed release on every exit path is violated on the early error
returns. -/
theorem uuid_generate_v5_leaks_context_on_error :
    (uuid_generate_v5 false false
      ⟨0, MBEDTLS_ERR_MD_BAD_INPUT_DATA, 0, 0, 0, List.replicate 20 0⟩
      (List.replicate 16 0)).freed = false ∧
    (uuid_generate_v5 false false
      ⟨0, MBEDTLS_ERR_MD_BAD_INPUT_DATA, 0, 0, 0, List.replicate 20 0⟩
      (List.replicate 16 0)).ret = -EINVAL ∧
    (uuid_generate_v5 false false
      ⟨0, 0, 0, 0, 0, List.replicate 20 0⟩
      (List.replicate 16 0)).freed = true := by
  refine ⟨rfl, rfl, rfl⟩

/-! Claim C3: error classification of `uuid_generate_v5`. -/

/-- C3 counterexample: the claim says an unrecognized hash-primitive error
code yields `-ENOTSUP` at every call site; at the `mbedtls_md_starts` call
site the code returns `-EINVAL` for the unrecognized code `-1` instead. -/
theorem uuid_generate_v5_starts_unknown_error_not_enotsup :
    (uuid_generate_v5 false false ⟨0, -1, 0, 0, 0, List.replicate 20 0⟩
      (List.replicate 16 0)).ret = -EINVAL ∧
    (uuid_generate_v5 false false ⟨0, -1, 0, 0, 0, List.replicate 20 0⟩
      (List.replicate 16 0)).ret ≠ -ENOTSUP := by
  refine ⟨rfl, by decide⟩

/-- C3 amended: the three-way classification (bad input `-EINVAL`,
allocation failure `-ENOMEM`, anything else `-ENOTSUP`) happens only at
the `mbedtls_md_setup` call site; a null namespace or output gives
`-EINVAL`, and any nonzero error from `mbedtls_md_starts`,
`mbedtls_md_update` or `mbedtls_md_finish` gives `-EINVAL` regardless of
its value. -/
theorem uuid_generate_v5_error_classification (md : MdOracle) (out : List Nat) :
    ((uuid_generate_v5 true false md out).ret = -EINVAL) ∧
    ((uuid_generate_v5 false true md out).ret = -EINVAL) ∧
    (md.setup_ret = MBEDTLS_ERR_MD_BAD_INPUT_DATA →
      (uuid_generate_v5 false false md out).ret = -EINVAL) ∧
    (md.setup_ret = MBEDTLS_ERR_MD_ALLOC_FAILED →
      (uuid_generate_v5 false false md out).ret = -ENOMEM) ∧
    (md.setup_ret ≠ 0 → md.setup_ret ≠ MBEDTLS_ERR_MD_BAD_INPUT_DATA →
      md.setup_ret ≠ MBEDTLS_ERR_MD_ALLOC_FAILED →
      (uuid_generate_v5 false false md out).ret = -ENOTSUP) ∧
    (md.setup_ret = 0 → md.starts_ret ≠ 0 →
      (uuid_generate_v5 false false md out).ret = -EINVAL) ∧
    (md.setup_ret = 0 → md.starts_ret = 0 → md.update_ns_ret ≠ 0 →
      (uuid_generate_v5 false false md out).ret = -EINVAL) ∧
    (md.setup_ret = 0 → md.starts_ret = 0 → md.update_ns_ret = 0 →
      md.update_data_ret ≠ 0 →
      (uuid_generate_v5 false false md out).ret = -EINVAL) ∧
    (md.setup_ret = 0 → md.starts_ret = 0 → md.update_ns_ret = 0 →
      md.update_data_ret = 0 → md.finish_ret ≠ 0 →
      (uuid_generate_v5 false false md out).ret = -EINVAL) := by
  refine ⟨by simp [uuid_generate_v5], by simp [uuid_generate_v5], ?_, ?_, ?_, ?_, ?_, ?_, ?_⟩
  · intro hs
    simp [uuid_generate_v5, hs, MBEDTLS_ERR_MD_BAD_INPUT_DATA]
  · intro hs
    simp [uuid_generate_v5, hs, MBEDTLS_ERR_MD_BAD_INPUT_DATA, MBEDTLS_ERR_MD_ALLOC_FAILED]
  · intro h1 h2 h3
    simp [uuid_generate_v5, h1, h2, h3]
  · intro h1 h2
    simp [uuid_generate_v5, h1, h2]
  · intro h1 h2 h3
    simp [uuid_generate_v5, h1, h2, h3]
  · intro h1 h2 h3 h4
    simp [uuid_generate_v5, h1, h2, h3, h4]
  · intro h1 h2 h3 h4 h5
    simp [uuid_generate_v5, h1, h2, h3, h4, h5]

/-- Witness for C3's amended classification at concrete oracles: an
allocation failure at setup gives `-ENOMEM`, an unrecognized setup error
gives `-ENOTSUP`, and an error at `mbedtls_md_starts` gives `-EINVAL`. -/
theorem uuid_generate_v5_error_classification_witness :
    (uuid_generate_v5 false false ⟨MBEDTLS_ERR_MD_ALLOC_FAILED, 0, 0, 0, 0, []⟩
      []).ret = -ENOMEM ∧
    (uuid_generate_v5 false false ⟨-1, 0, 0, 0, 0, []⟩ []).ret = -ENOTSUP ∧
    (uuid_generate_v5 false false ⟨0, -7, 0, 0, 0, []⟩ []).ret = -EINVAL :=
  ⟨(uuid_generate_v5_error_classification ⟨MBEDTLS_ERR_MD_ALLOC_FAILED, 0, 0, 0, 0, []⟩
      []).2.2.2.1 rfl,
   (uuid_generate_v5_error_classification ⟨-1, 0, 0, 0, 0, []⟩ []).2.2.2.2.1
      (by decide) (by decide) (by decide),
   (uuid_generate_v5_error_classification ⟨0, -7, 0, 0, 0, []⟩ []).2.2.2.2.2.1
      rfl (by decide)⟩

/-! Claim C4: version/variant stamping touches exactly the claimed bits. -/

set_option maxRecDepth 4000 in
lemma stamp_byte6 (x : Nat) (h : x < 256) :
    ((x &&& 15) ||| 64) / 16 = 4 ∧ ((x &&& 15) ||| 64) % 16 = x % 16 ∧
    ((x &&& 15) ||| 80) / 16 = 5 ∧ ((x &&& 15) ||| 80) % 16 = x % 16 := by
  have key : ∀ y : Fin 256,
      ((y.val &&& 15) ||| 64) / 16 = 4 ∧ ((y.val &&& 15) ||| 64) % 16 = y.val % 16 ∧
      ((y.val &&& 15) ||| 80) / 16 = 5 ∧ ((y.val &&& 15) ||| 80) % 16 = y.val % 16 := by
    decide
  exact key ⟨x, h⟩

set_option maxRecDepth 4000 in
lemma stamp_byte8 (x : Nat) (h : x < 256) :
    ((x &&& 63) ||| 128) / 64 = 2 ∧ ((x &&& 63) ||| 128) % 64 = x % 64 := by
  have key : ∀ y : Fin 256,
      ((y.val &&& 63) ||| 128) / 64 = 2 ∧ ((y.val &&& 63) ||| 128) % 64 = y.val % 64 := by
    decide
  exact key ⟨x, h⟩

/-- C4: a UUID produced by `uuid_generate_v4` is the stamped random block,
a UUID produced by `uuid_generate_v5` (with a successfully set-up hash) is
the stamped first 16 digest bytes; in each the high nibble of byte 6 is
the version (4 or 5), the top two bits of byte 8 are binary 10, and every
other bit — the low nibble of byte 6, the low six bits of byte 8, and all
fourteen remaining bytes — is exactly as the generation source supplied
it. -/
theorem uuid_generate_version_variant_bits
    (r0 r1 r2 r3 r4 r5 r6 r7 r8 r9 r10 r11 r12 r13 r14 r15 : Nat)
    (d0 d1 d2 d3 d4 d5 d6 d7 d8 d9 d10 d11 d12 d13 d14 d15 : Nat)
    (dtail pbuf : List Nat)
    (h6 : r6 < 256) (h8 : r8 < 256) (g6 : d6 < 256) (g8 : d8 < 256) :
    (uuid_generate_v4 [r0, r1, r2, r3, r4, r5, r6, r7, r8, r9, r10, r11, r12, r13, r14, r15]
        (some pbuf)).2 =
      some (overwrite_uuid_version_and_variant
        [r0, r1, r2, r3, r4, r5, r6, r7, r8, r9, r10, r11, r12, r13, r14, r15] 4 2) ∧
    (uuid_generate_v5 false false
        ⟨0, 0, 0, 0, 0,
          d0 :: d1 :: d2 :: d3 :: d4 :: d5 :: d6 :: d7 :: d8 :: d9 ::
          d10 :: d11 :: d12 :: d13 :: d14 :: d15 :: dtail⟩ pbuf).out =
      overwrite_uuid_version_and_variant
        [d0, d1, d2, d3, d4, d5, d6, d7, d8, d9, d10, d11, d12, d13, d14, d15] 5 2 ∧
    ((overwrite_uuid_version_and_variant
        [r0, r1, r2, r3, r4, r5, r6, r7, r8, r9, r10, r11, r12, r13, r14, r15] 4 2).getD 6 0)
        / 16 = 4 ∧
    ((overwrite_uuid_version_and_variant
        [r0, r1, r2, r3, r4, r5, r6, r7, r8, r9, r10, r11, r12, r13, r14, r15] 4 2).getD 8 0)
        / 64 = 2 ∧
    ((overwrite_uuid_version_and_variant
        [r0, r1, r2, r3, r4, r5, r6, r7, r8, r9, r10, r11, r12, r13, r14, r15] 4 2).getD 6 0)
        % 16 = r6 % 16 ∧
    ((overwrite_uuid_version_and_variant
        [r0, r1, r2, r3, r4, r5, r6, r7, r8, r9, r10, r11, r12, r13, r14, r15] 4 2).getD 8 0)
        % 64 = r8 % 64 ∧
    (∀ i, i < 16 → i ≠ 6 → i ≠ 8 →
      (overwrite_uuid_version_and_variant
        [r0, r1, r2, r3, r4, r5, r6, r7, r8, r9, r10, r11, r12, r13, r14, r15] 4 2).getD i 0 =
      [r0, r1, r2, r3, r4, r5, r6, r7, r8, r9, r10, r11, r12, r13, r14, r15].getD i 0) ∧
    ((overwrite_uuid_version_and_variant
        [d0, d1, d2, d3, d4, d5, d6, d7, d8, d9, d10, d11, d12, d13, d14, d15] 5 2).getD 6 0)
        / 16 = 5 ∧
    ((overwrite_uuid_version_and_variant
        [d0, d1, d2, d3, d4, d5, d6, d7, d8, d9, d10, d11, d12, d13, d14, d15] 5 2).getD 8 0)
        / 64 = 2 ∧
    ((overwrite_uuid_version_and_variant
        [d0, d1, d2, d3, d4, d5, d6, d7, d8, d9, d10, d11, d12, d13, d14, d15] 5 2).getD 6 0)
        % 16 = d6 % 16 ∧
    ((overwrite_uuid_version_and_variant
        [d0, d1, d2, d3, d4, d5, d6, d7, d8, d9, d10, d11, d12, d13, d14, d15] 5 2).getD 8 0)
        % 64 = d8 % 64 ∧
    (∀ i, i < 16 → i ≠ 6 → i ≠ 8 →
      (overwrite_uuid_version_and_variant
        [d0, d1, d2, d3, d4, d5, d6, d7, d8, d9, d10, d11, d12, d13, d14, d15] 5 2).getD i 0 =
      [d0, d1, d2, d3, d4, d5, d6, d7, d8, d9, d10, d11, d12, d13, d14, d15].getD i 0) := by
  obtain ⟨s4a, s4b, s5a, s5b⟩ := stamp_byte6 r6 h6
  obtain ⟨t4a, t4b⟩ := stamp_byte8 r8 h8
  obtain ⟨w4a, w4b, w5a, w5b⟩ := stamp_byte6 d6 g6
  obtain ⟨v4a, v4b⟩ := stamp_byte8 d8 g8
  refine ⟨rfl, rfl, ?_, ?_, ?_, ?_, ?_, ?_, ?_, ?_, ?_, ?_⟩
  · simpa [overwrite_uuid_version_and_variant] using s4a
  · simpa [overwrite_uuid_version_and_variant] using t4a
  · simpa [overwrite_uuid_version_and_variant] using s4b
  · simpa [overwrite_uuid_version_and_variant] using t4b
  · intro i hi hi6 hi8
    interval_cases i <;>
      first
        | rfl
        | exact absurd rfl hi6
        | exact absurd rfl hi8
  · simpa [overwrite_uuid_version_and_variant] using w5a
  · simpa [overwrite_uuid_version_and_variant] using v4a
  · simpa [overwrite_uuid_version_and_variant] using w5b
  · simpa [overwrite_uuid_version_and_variant] using v4b
  · intro i hi hi6 hi8
    interval_cases i <;>
      first
        | rfl
        | exact absurd rfl hi6
        | exact absurd rfl hi8

/-- Witness for C4 at concrete generation-source bytes. -/
theorem uuid_generate_version_variant_bits_witness :
    (uuid_generate_v4 [1, 2, 3, 4, 5, 6, 0xAB, 8, 0xCD, 10, 11, 12, 13, 14, 15, 16]
        (some (List.replicate 16 0))).2 =
      some (overwrite_uuid_version_and_variant
        [1, 2, 3, 4, 5, 6, 0xAB, 8, 0xCD, 10, 11, 12, 13, 14, 15, 16] 4 2) ∧
    ((overwrite_uuid_version_and_variant
        [1, 2, 3, 4, 5, 6, 0xAB, 8, 0xCD, 10, 11, 12, 13, 14, 15, 16] 4 2).getD 6 0)
        / 16 = 4 :=
  ⟨(uuid_generate_version_variant_bits 1 2 3 4 5 6 0xAB 8 0xCD 10 11 12 13 14 15 16
      1 2 3 4 5 6 7 8 9 10 11 12 13 14 15 16 [17, 18, 19, 20] (List.replicate 16 0)
      (by decide) (by decide) (by decide) (by decide)).1,
   (uuid_generate_version_variant_bits 1 2 3 4 5 6 0xAB 8 0xCD 10 11 12 13 14 15 16
      1 2 3 4 5 6 7 8 9 10 11 12 13 14 15 16 [17, 18, 19, 20] (List.replicate 16 0)
      (by decide) (by decide) (by decide) (by decide)).2.2.1⟩

/-! Copy and binary import (`uuid_copy`, `uuid_from_buffer`); the
little-endian importer is declared in the header but its body is not
among the sources. -/

/-- Embeds `uuid_copy` from `lib/uuid/uuid.c`: null checks, then a
16-byte `memcpy` from `src` into `dst`. -/
def uuid_copy (dst src : Option (List Nat)) : Int × Option (List Nat) :=
  match dst, src with
  | some _, some s => (0, some (s.take 16))
  | _, _ => (-EINVAL, dst)

/-- Embeds `uuid_from_buffer` from `lib/uuid/uuid.c` (declared as
`uuid_from_buffer_be` in the header): null checks, then a verbatim
16-byte `memcpy` of the big-endian buffer into `out`. -/
def uuid_from_buffer (data out : Option (List Nat)) : Int × Option (List Nat) :=
  match data, out with
  | some d, some _ => (0, some (d.take 16))
  | _, _ => (-EINVAL, out)

/-- Modelled from the spec: `uuid_from_buffer_le` is declared in
`include/zephyr/sys/uuid.h` but its body is not among the sources; per
the spec it reverses the first 4 bytes, the next 2, and the next 2 of
the Microsoft COM/GUID little-endian input and copies the final 8 bytes
verbatim. -/
def uuid_from_buffer_le (data out : Option (List Nat)) : Int × Option (List Nat) :=
  match data, out with
  | some d, some _ =>
    (0, some [d.getD 3 0, d.getD 2 0, d.getD 1 0, d.getD 0 0,
              d.getD 5 0, d.getD 4 0, d.getD 7 0, d.getD 6 0,
              d.getD 8 0, d.getD 9 0, d.getD 10 0, d.getD 11 0,
              d.getD 12 0, d.getD 13 0, d.getD 14 0, d.getD 15 0])
  | _, _ => (-EINVAL, out)

/-- The little-endian counterpart of a big-endian 16-byte buffer: the
4/2/2/8 byte-group reversal the spec describes. -/
def le_counterpart (d : List Nat) : List Nat :=
  [d.getD 3 0, d.getD 2 0, d.getD 1 0, d.getD 0 0,
   d.getD 5 0, d.getD 4 0, d.getD 7 0, d.getD 6 0,
   d.getD 8 0, d.getD 9 0, d.getD 10 0, d.getD 11 0,
   d.getD 12 0, d.getD 13 0, d.getD 14 0, d.getD 15 0]

/-! Claim C6: little-endian import agrees with big-endian import on
counterpart buffers. -/

/-- C6: importing the 4/2/2/8-byte-group-reversed (little-endian)
counterpart of any 16-byte buffer through `uuid_from_buffer_le` yields
exactly the UUID that `uuid_from_buffer` yields on the big-endian buffer
itself; in particular the big-endian buffer `00112233445566778899AABBCCDDEEFF`
and the little-endian buffer `33221100554477668899AABBCCDDEEFF` import to
the identical UUID value. -/
theorem uuid_from_buffer_le_matches_be
    (b0 b1 b2 b3 b4 b5 b6 b7 b8 b9 b10 b11 b12 b13 b14 b15 : Nat)
    (obuf : List Nat) :
    uuid_from_buffer_le
      (some (le_counterpart
        [b0, b1, b2, b3, b4, b5, b6, b7, b8, b9, b10, b11, b12, b13, b14, b15]))
      (some obuf) =
      uuid_from_buffer
        (some [b0, b1, b2, b3, b4, b5, b6, b7, b8, b9, b10, b11, b12, b13, b14, b15])
        (some obuf) ∧
    uuid_from_buffer_le
      (some [0x33, 0x22, 0x11, 0x00, 0x55, 0x44, 0x77, 0x66,
             0x88, 0x99, 0xAA, 0xBB, 0xCC, 0xDD, 0xEE, 0xFF])
      (some obuf) =
      uuid_from_buffer
        (some [0x00, 0x11, 0x22, 0x33, 0x44, 0x55, 0x66, 0x77,
               0x88, 0x99, 0xAA, 0xBB, 0xCC, 0xDD, 0xEE, 0xFF])
        (some obuf) :=
  ⟨rfl, rfl⟩

/-! Claim C9: `uuid_copy`. -/

/-- C9: for non-null destination and source, `uuid_copy` returns 0 and
the destination becomes byte-for-byte the 16 source bytes; with a null
pointer on either side it returns `-EINVAL` and writes nothing. -/
theorem uuid_copy_spec
    (s0 s1 s2 s3 s4 s5 s6 s7 s8 s9 s10 s11 s12 s13 s14 s15 : Nat)
    (dst : List Nat) :
    uuid_copy (some dst)
        (some [s0, s1, s2, s3, s4, s5, s6, s7, s8, s9, s10, s11, s12, s13, s14, s15]) =
      (0, some [s0, s1, s2, s3, s4, s5, s6, s7, s8, s9, s10, s11, s12, s13, s14, s15]) ∧
    uuid_copy none
        (some [s0, s1, s2, s3, s4, s5, s6, s7, s8, s9, s10, s11, s12, s13, s14, s15]) =
      (-EINVAL, none) ∧
    uuid_copy (some dst) none = (-EINVAL, some dst) ∧
    uuid_copy none none = (-EINVAL, none) :=
  ⟨rfl, rfl, rfl, rfl⟩

/-! Base64 encodings (`uuid_to_base64`, `uuid_to_base64url`). -/

/-- The RFC 4648 standard alphabet. -/
def base64_table : List Char :=
  "ABCDEFGHIJKLMNOPQRSTUVWXYZabcdefghijklmnopqrstuvwxyz0123456789+/".toList

/-- Character for one 6-bit group. -/
def b64c (n : Nat) : Char := base64_table.getD n 'A'

/-- Modelled from the spec: the external base64 encoder
(`sys/base64.h`, whose code is not among the sources) in the standard
RFC 4648 padded form: three input bytes become four alphabet characters,
a trailing single byte becomes two characters plus `==` padding, a
trailing pair becomes three characters plus `=`. -/
def base64_encode : List Nat → List Char
  | a :: b :: c :: rest =>
    b64c (a / 4) :: b64c (a % 4 * 16 + b / 16) :: b64c (b % 16 * 4 + c / 64) ::
      b64c (c % 64) :: base64_encode rest
  | [a, b] => [b64c (a / 4), b64c (a % 4 * 16 + b / 16), b64c (b % 16 * 4), '=']
  | [a] => [b64c (a / 4), b64c (a % 4 * 16), '=', '=']
  | [] => []

/-- Embeds `uuid_to_base64` from `lib/uuid/uuid.c`: null checks, then the
encoder writes the 24-character padded form (the buffer of
`UUID_BASE64_LEN` = 25 is always large enough); the value the encoder
returns and the byte count it reports (`olen`) are received but never
examined — the function returns 0 regardless. -/
def uuid_to_base64 (uuidNull outNull : Bool) (u : List Nat)
    (enc_ret : Int) (olen : Nat) (out : List Char) : Int × List Char :=
  if uuidNull || outNull then (-EINVAL, out)
  else (0, base64_encode u)

/-- The in-place substitution the `for` loop of `uuid_to_base64url`
applies to one character: first `+` becomes `-`, then `/` becomes `_`. -/
def swap_step (c : Char) : Char :=
  let c1 := if c == '+' then '-' else c
  if c1 == '/' then '_' else c1

/-- The `for` loop of `uuid_to_base64url`: characters at indexes below
`UUID_BASE64URL_LEN - 1` = 22 are substituted in place, the rest of the
buffer is left alone. -/
def url_loop : List Char → Nat → List Char
  | [], _ => []
  | c :: rest, i => (if i < 22 then swap_step c else c) :: url_loop rest (i + 1)

/-- Embeds `uuid_to_base64url` from `lib/uuid/uuid.c`: null checks; the
standard padded encoding is produced into a scratch buffer; the loop
substitutes `-` and `_` over the first 22 characters; the first 22
characters are copied to `out` and a NUL terminator is appended. -/
def uuid_to_base64url (uuid : Option (List Nat)) (outNull : Bool)
    (out : List Char) : Int × List Char :=
  match uuid with
  | none => (-EINVAL, out)
  | some u =>
    if outNull then (-EINVAL, out)
    else
      let enc := base64_encode u
      let url := url_loop enc 0
      (0, url.take 22 ++ [Char.ofNat 0])

/-- The substitution the spec describes, applied to a whole character:
every `+` becomes `-`, every `/` becomes `_`. -/
def swap_spec (c : Char) : Char :=
  if c == '+' then '-' else if c == '/' then '_' else c

/-- Definition following the spec's words for claim C5: the 24-character
standard base64 encoding with every `+` replaced by `-` and every `/`
replaced by `_`, truncated to its first 22 characters, followed by a
terminator. -/
def uuid_to_base64url_spec (u : List Nat) : List Char :=
  (((base64_encode u).map swap_spec).take 22) ++ [Char.ofNat 0]

lemma swap_step_eq_swap_spec (c : Char) : swap_step c = swap_spec c := by
  by_cases h1 : c = '+'
  · subst h1; rfl
  · by_cases h2 : c = '/'
    · subst h2; rfl
    · simp [swap_step, swap_spec, h1, h2]

lemma url_loop_take (l : List Char) : ∀ i : Nat,
    (url_loop l i).take (22 - i) = (l.map swap_step).take (22 - i) := by
  induction l with
  | nil => intro i; simp [url_loop]
  | cons c rest IH =>
    intro i
    by_cases hi : i < 22
    · have hsub : 22 - i = (22 - (i + 1)) + 1 := by omega
      simp only [url_loop, List.map_cons, hsub, List.take_succ_cons, hi, if_true]
      rw [IH (i + 1)]
    · have hsub : 22 - i = 0 := by omega
      simp [hsub]

/-! Claim C5: base64url equals substituted-and-truncated base64. -/

/-- C5: for every 16-byte UUID value the output buffer written by
`uuid_to_base64url` is exactly the 24-character standard base64 encoding
of the value with every `+` replaced by `-` and every `/` replaced by
`_`, truncated to its first 22 characters, followed by a NUL terminator;
and with 16 input bytes the standard encoding indeed has 24 characters,
the final two being the `=` padding. -/
theorem uuid_to_base64url_matches_spec
    (b0 b1 b2 b3 b4 b5 b6 b7 b8 b9 b10 b11 b12 b13 b14 b15 : Nat)
    (obuf : List Char) :
    (uuid_to_base64url
        (some [b0, b1, b2, b3, b4, b5, b6, b7, b8, b9, b10, b11, b12, b13, b14, b15])
        false obuf).2 =
      uuid_to_base64url_spec
        [b0, b1, b2, b3, b4, b5, b6, b7, b8, b9, b10, b11, b12, b13, b14, b15] ∧
    (base64_encode
        [b0, b1, b2, b3, b4, b5, b6, b7, b8, b9, b10, b11, b12, b13, b14, b15]).length
      = 24 ∧
    (base64_encode
        [b0, b1, b2, b3, b4, b5, b6, b7, b8, b9, b10, b11, b12, b13, b14, b15]).drop 22
      = ['=', '='] := by
  refine ⟨?_, by simp [base64_encode], rfl⟩
  have h22 : (22 : Nat) = 22 - 0 := rfl
  simp only [uuid_to_base64url, uuid_to_base64url_spec, Bool.false_eq_true, if_false,
    ite_false]
  rw [h22, url_loop_take, List.map_congr_left (fun c _ => swap_step_eq_swap_spec c)]

/-! Claim C10: `uuid_to_base64` never surfaces an encoder failure. -/

/-- C10: with non-null arguments `uuid_to_base64` returns 0 whatever
value the base64 encoder returns and whatever byte count it reports; the
whole result is independent of both, so an encoder failure can never be
surfaced to the caller. -/
theorem uuid_to_base64_ignores_encoder_result
    (u : List Nat) (out : List Char) (enc_ret enc_ret' : Int) (olen olen' : Nat) :
    (uuid_to_base64 false false u enc_ret olen out).1 = 0 ∧
    uuid_to_base64 false false u enc_ret olen out =
      uuid_to_base64 false false u enc_ret' olen' out :=
  ⟨rfl, rfl⟩

end UuidSpec
